import Mathlib

/-!
Shallow embedding of `src/driver.py` (the OMol25 CLI driver).

Conventions of the embedding:
* Python machine floats are modelled exactly: values flowing through the
  option resolver are exact rationals (`ℚ`), and values flowing through the
  output formatter are sign-magnitude rationals (`F64`, below) so that the
  IEEE-754 signed zero produced by `-forces` is captured.  All arithmetic the
  driver performs on these values (negation, multiplication, division by the
  positive unit constants, addition of squares) is exact on the inputs the
  claims exercise, so the rational model agrees with the float computation
  there.  Float overflow, `inf`/`nan` literals and underscore digit
  separators accepted by Python's `float()`/`int()` are outside the model.
* Fallible Python code (`int(...)`, `float(...)`, the resolver) is modelled
  with `Except PyErr`, where `PyErr` carries the `ValueError` message text.
* Filesystem state is passed explicitly: marker files are `Option String`
  (`none` = file does not exist), and writing through `open(file, "w")` is a
  function of the file's previous content (which mode `"w"` truncates).
* The verbose diagnostic printing inside `read_charge_and_multiplicity`
  (source lines 54-83) is omitted: it affects no return value or file.
-/

/-- Python `ValueError`, the only exception type the driver raises itself. -/
inductive PyErr where
  | valueError (msg : String)
deriving DecidableEq

/-- The characters `str.strip()` removes (ASCII whitespace as in Python). -/
def isPyWS (c : Char) : Bool :=
  c == ' ' || c == '\t' || c == '\n' || c == '\r' || c == '\x0B' || c == '\x0C'

/-- Core of Python `str.strip()`: drop leading and trailing whitespace. -/
def stripList (l : List Char) : List Char :=
  ((l.dropWhile isPyWS).reverse.dropWhile isPyWS).reverse

/-- Python `s.strip()`. -/
def pyStrip (s : String) : String := String.mk (stripList s.data)

/-- Decimal value of a digit list (most significant first). -/
def digitsToNat (ds : List Char) : Nat :=
  List.foldl (fun a c => a * 10 + (c.toNat - 48)) 0 ds

/-- Python `repr` of a string, as it appears inside `ValueError` messages.
Faithful for strings without quotes, backslashes or control characters. -/
def pyRepr (s : String) : String := "'" ++ s ++ "'"

/-- Core of Python `int(str)`: optional sign followed by a nonempty run of
decimal digits.  (Python additionally accepts surrounding whitespace, which
the driver has already stripped, and underscore separators, unmodelled.) -/
def pyIntCore (cs : List Char) : Option Int :=
  match cs with
  | '+' :: rest =>
      if !rest.isEmpty && rest.all Char.isDigit then some (digitsToNat rest) else none
  | '-' :: rest =>
      if !rest.isEmpty && rest.all Char.isDigit then some (-(digitsToNat rest : Int)) else none
  | _ =>
      if !cs.isEmpty && cs.all Char.isDigit then some (digitsToNat cs) else none

/-- Python `int(s)` for string `s`, with the `ValueError` it raises on
unparseable input (whose message names the offending text, not any file). -/
def pyInt (s : String) : Except PyErr Int :=
  match pyIntCore (pyStrip s).data with
  | some n => Except.ok n
  | none =>
      Except.error (PyErr.valueError ("invalid literal for int() with base 10: " ++ pyRepr s))

/-- Exponent tail of a Python float literal: `e`/`E` already consumed. -/
def pyFloatExpTail (base : ℚ) (r : List Char) : Option ℚ :=
  let p : Bool × List Char :=
    match r with
    | '-' :: t => (true, t)
    | '+' :: t => (false, t)
    | _ => (false, r)
  let ds := p.2.takeWhile Char.isDigit
  let rest := p.2.dropWhile Char.isDigit
  if ds.isEmpty || !rest.isEmpty then none
  else
    let e := digitsToNat ds
    some (if p.1 then base / (10 : ℚ) ^ e else base * (10 : ℚ) ^ e)

/-- Optional exponent part of a Python float literal. -/
def pyFloatExp (base : ℚ) : List Char → Option ℚ
  | [] => some base
  | 'e' :: r => pyFloatExpTail base r
  | 'E' :: r => pyFloatExpTail base r
  | _ => none

/-- Core of Python `float(str)`: sign, integer digits, optional fraction,
optional exponent.  The value is kept exact as a rational; `inf`/`nan`
literals and underscore separators are unmodelled. -/
def pyFloatCore (cs : List Char) : Option ℚ :=
  let sp : Bool × List Char :=
    match cs with
    | '-' :: t => (true, t)
    | '+' :: t => (false, t)
    | _ => (false, cs)
  let ip := sp.2.takeWhile Char.isDigit
  let cs2 := sp.2.dropWhile Char.isDigit
  let fr : List Char × List Char :=
    match cs2 with
    | '.' :: t => (t.takeWhile Char.isDigit, t.dropWhile Char.isDigit)
    | _ => ([], cs2)
  if ip.isEmpty && fr.1.isEmpty then none
  else
    let base : ℚ := (digitsToNat ip : ℚ) + (digitsToNat fr.1 : ℚ) / (10 : ℚ) ^ fr.1.length
    (pyFloatExp base fr.2).map (fun v => if sp.1 then -v else v)

/-- Python `float(s)` with its `ValueError` on unparseable input. -/
def pyFloat (s : String) : Except PyErr ℚ :=
  match pyFloatCore (pyStrip s).data with
  | some q => Except.ok q
  | none =>
      Except.error (PyErr.valueError ("could not convert string to float: " ++ pyRepr s))

/-- Python `int()` applied to a (here: exact rational) float value:
truncation toward zero. -/
def ratTrunc (q : ℚ) : Int :=
  if 0 ≤ q.num then ((q.num.toNat / q.den : Nat) : Int)
  else -(((-q.num).toNat / q.den : Nat) : Int)

/-- `str(curr_dir / name)` for the `Path` objects the resolver builds:
`Path(".") / name` renders as just `name`. -/
def pyPathStr (dir : String) (name : String) : String :=
  if dir = "." then name else dir ++ "/" ++ name

/-- Embedding of `read_charge_and_multiplicity` (source lines 38-85).
`chrgContent` / `uhfContent` are the contents of `curr_dir/.CHRG` and
`curr_dir/.UHF` (`none` when the file does not exist).  Mirrors the source's
control flow: the charge is resolved first, so an unparseable `.CHRG`
aborts before the multiplicity branch runs; the `float` failure in the
`.UHF` branch is caught and re-raised naming the file, while the `int`
failure in the `.CHRG` branch is not caught. -/
def read_charge_and_multiplicity (currDir : String)
    (chrgContent uhfContent : Option String)
    (cliCharge cliMult : Option Int) : Except PyErr (Int × Int) :=
  let chargeRes : Except PyErr Int :=
    match cliCharge with
    | some c => Except.ok c
    | none =>
      match chrgContent with
      | some txt => pyInt (pyStrip txt)
      | none => Except.ok 0
  match chargeRes with
  | Except.error e => Except.error e
  | Except.ok charge =>
    match cliMult with
    | some m => Except.ok (charge, m)
    | none =>
      match uhfContent with
      | some txt =>
        match pyFloat (pyStrip txt) with
        | Except.ok u => Except.ok (charge, ratTrunc (2 * (u * (0.5 : ℚ)) + 1))
        | Except.error _ =>
            Except.error (PyErr.valueError ("Invalid float in " ++ pyPathStr currDir ".UHF"))
      | none => Except.ok (charge, 1)

instance {ε α : Type} [DecidableEq ε] [DecidableEq α] : DecidableEq (Except ε α) := fun x y =>
  match x, y with
  | Except.ok a, Except.ok b =>
      if h : a = b then isTrue (by rw [h]) else isFalse (fun hh => by cases hh; exact h rfl)
  | Except.ok _, Except.error _ => isFalse (fun hh => by cases hh)
  | Except.error _, Except.ok _ => isFalse (fun hh => by cases hh)
  | Except.error e, Except.error f =>
      if h : e = f then isTrue (by rw [h]) else isFalse (fun hh => by cases hh; exact h rfl)

/-- Substring test, used to formalise "the error message names the file". -/
def hasSubstring : List Char → List Char → Bool
  | [], sub => sub.isEmpty
  | c :: rest, sub => sub.isPrefixOf (c :: rest) || hasSubstring rest sub

/-! ### Formatter model

`write_gradient_block` / `write_energy_block` (source lines 95-125) format
IEEE doubles.  A double that is not `inf`/`nan` is a signed zero or a signed
magnitude; `F64` models it as a sign bit plus an exact nonnegative rational
magnitude, which keeps the `-0.0` produced by `-forces` observable in the
formatted output exactly as `printf`-style `%f` formatting shows it. -/

/-- Sign-magnitude model of a (finite) Python float. -/
structure F64 where
  neg : Bool
  mag : ℚ
deriving DecidableEq

/-- Inject an exact rational as a float value. -/
def F64.ofRat (q : ℚ) : F64 := ⟨decide (q < 0), |q|⟩

/-- The rational value of a float (the sign of zero is lost here). -/
def F64.val (x : F64) : ℚ := if x.neg then -x.mag else x.mag

/-- IEEE negation: flips the sign bit, also on zero. -/
def F64.fneg (x : F64) : F64 := ⟨!x.neg, x.mag⟩

/-- IEEE multiplication restricted to exact results: sign is the xor. -/
def F64.fmul (a b : F64) : F64 := ⟨xor a.neg b.neg, a.mag * b.mag⟩

/-- IEEE division restricted to exact results: sign is the xor. -/
def F64.fdiv (a b : F64) : F64 := ⟨xor a.neg b.neg, a.mag / b.mag⟩

/-- IEEE addition restricted to exact results: an exactly-zero sum is `+0`
unless both operands are negative (round-to-nearest semantics). -/
def F64.fadd (a b : F64) : F64 :=
  let v := a.val + b.val
  if v = 0 then (if a.neg && b.neg then ⟨true, 0⟩ else ⟨false, 0⟩) else F64.ofRat v

/-- Rational square root: exact when the argument is a perfect rational
square (the only case the proved theorems rely on); otherwise a floor-based
rational approximation stands in for the correctly-rounded float result. -/
def ratSqrtA (q : ℚ) : ℚ :=
  let n := q.num.toNat
  let d := q.den
  if Nat.sqrt n * Nat.sqrt n = n ∧ Nat.sqrt d * Nat.sqrt d = d
  then (Nat.sqrt n : ℚ) / (Nat.sqrt d : ℚ)
  else (Nat.sqrt (n * d) : ℚ) / (d : ℚ)

/-- IEEE square root: `sqrt (-0.0) = -0.0`, positive values as `ratSqrtA`. -/
def F64.fsqrt (x : F64) : F64 := ⟨x.neg, ratSqrtA x.mag⟩

/-- Round a nonnegative rational to the nearest integer, ties to even
(the rounding used when `%f`-formatting an exactly-represented double). -/
def rheNat (q : ℚ) : Nat :=
  let f := q.num.toNat / q.den
  let r := q - (f : ℚ)
  if r < 1 / 2 then f else if 1 / 2 < r then f + 1 else if f % 2 = 0 then f else f + 1

/-- Left-pad with `'0'` to width `w`. -/
def padZeroes (w : ℕ) (s : String) : String :=
  String.mk (List.replicate (w - s.length) '0') ++ s

/-- Left-pad with spaces to width `w` (Python's default right-justification
of numeric fields, and `{:>2}`). -/
def padSpaces (w : ℕ) (s : String) : String :=
  String.mk (List.replicate (w - s.length) ' ') ++ s

/-- Python `%.{prec}f` formatting of a float: the sign (printed even for a
negative zero), the integer digits, `'.'`, and `prec` fraction digits. -/
def fmtFixed (prec : ℕ) (x : F64) : String :=
  let n := rheNat (x.mag * (10 : ℚ) ^ prec)
  (if x.neg then "-" else "") ++ toString (n / 10 ^ prec) ++ "." ++
    padZeroes prec (toString (n % 10 ^ prec))

/-- `ase.units.Bohr` (Å per Bohr): exact-rational stand-in for the positive
float constant; only positivity matters to the claims settled here. -/
def BohrQ : ℚ := 0.5291772105638411

/-- `ase.units.Hartree` (eV per Hartree): exact-rational stand-in for the
positive float constant. -/
def HartreeQ : ℚ := 27.211386024367243

/-- `Bohr` as a float value. -/
def BohrF : F64 := ⟨false, BohrQ⟩

/-- `Hartree` as a float value. -/
def HartreeF : F64 := ⟨false, HartreeQ⟩

/-- A 3-vector of float values (one row of `atoms.positions` or `forces`). -/
def V3 : Type := F64 × F64 × F64

instance : DecidableEq V3 := fun a b =>
  inferInstanceAs (Decidable (Prod.mk a.1 a.2 = Prod.mk b.1 b.2))

/-- `gradient = -forces * Bohr / Hartree`, componentwise (source line 101). -/
def gradOfForce (f : F64) : F64 := (f.fneg.fmul BohrF).fdiv HartreeF

/-- One row of the gradient array. -/
def gradV3 (f : V3) : V3 := (gradOfForce f.1, gradOfForce f.2.1, gradOfForce f.2.2)

/-- `np.ndarray.flatten` of an `(n, 3)` array. -/
def flat3 : List V3 → List F64
  | [] => []
  | v :: t => v.1 :: v.2.1 :: v.2.2 :: flat3 t

/-- Accumulate one squared component (step of `np.linalg.norm`'s sum). -/
def sqAcc (acc : F64) (x : F64) : F64 := acc.fadd (x.fmul x)

/-- `np.linalg.norm`: square root of the sum of squared components. -/
def npNorm (xs : List F64) : F64 := F64.fsqrt (List.foldl sqAcc ⟨false, 0⟩ xs)

/-- Sum of squared magnitudes, the exact value `np.linalg.norm` roots. -/
def sumSqMags (xs : List F64) : ℚ := (xs.map (fun x => x.mag * x.mag)).sum

/-- One coordinate line (source line 112): `{x:20.14f}  {y:20.14f}  {z:20.14f}
{symbol.lower():>2}` with positions divided by `Bohr`. -/
def coordLine (p : V3) (sym : String) : String :=
  padSpaces 20 (fmtFixed 14 (p.1.fdiv BohrF)) ++ "  " ++
    padSpaces 20 (fmtFixed 14 (p.2.1.fdiv BohrF)) ++ "  " ++
    padSpaces 20 (fmtFixed 14 (p.2.2.fdiv BohrF)) ++ " " ++
    padSpaces 2 (String.toLower sym) ++ "\n"

/-- The coordinate loop (source lines 110-113): one line per
`zip(atoms.positions, symbols)` pair, stopping at the shorter list. -/
def coordLinesOf : List V3 → List String → String
  | p :: ps, s :: ss => coordLine p s ++ coordLinesOf ps ss
  | _, _ => ""

/-- One `np.savetxt(f, gradient, fmt="%20.14f")` row: fields joined by a
single space, terminated by a newline. -/
def gradLine (g : V3) : String :=
  padSpaces 20 (fmtFixed 14 g.1) ++ " " ++ padSpaces 20 (fmtFixed 14 g.2.1) ++ " " ++
    padSpaces 20 (fmtFixed 14 g.2.2) ++ "\n"

/-- All `savetxt` rows of the gradient array. -/
def gradLinesOf : List V3 → String
  | [] => ""
  | g :: gs => gradLine g ++ gradLinesOf gs

/-- Embedding of `write_gradient_block` (source lines 95-118): returns the
full file content and the stdout line printed afterwards. -/
def write_gradient_block (energyHartree : F64) (positions : List V3)
    (symbols : List String) (forces : List V3) : String × String :=
  let gradient := forces.map gradV3
  let gradNorm := npNorm (flat3 gradient)
  let content :=
    "$grad\n" ++
      " cycle = 1   SCF energy = " ++ fmtFixed 10 energyHartree ++
      "  |dE/dxyz| = " ++ fmtFixed 10 gradNorm ++ "\n" ++
      coordLinesOf positions symbols ++
      gradLinesOf gradient ++
      "$end\n"
  (content, "Gradient Norm: " ++ fmtFixed 10 gradNorm ++ "\n")

/-- Embedding of `write_energy_block` (source lines 121-125). -/
def write_energy_block (energyHartree : F64) : String :=
  "$energy\n     1     " ++ fmtFixed 10 energyHartree ++ "     " ++
    fmtFixed 10 energyHartree ++ "     " ++ fmtFixed 10 energyHartree ++ "\n$end\n"

/-- `file.open("w")`: opening a file in mode `"w"` truncates whatever
content it had. -/
def pyOpenTruncate (_prior : String) : String := ""

/-- `write_gradient_block` as a transformation of the target file's
content: truncate-on-open, then write the block. -/
def writeGradientBlockFS (prior : String) (energyHartree : F64) (positions : List V3)
    (symbols : List String) (forces : List V3) : String :=
  pyOpenTruncate prior ++ (write_gradient_block energyHartree positions symbols forces).1

/-- `write_energy_block` as a transformation of the target file's content. -/
def writeEnergyBlockFS (prior : String) (energyHartree : F64) : String :=
  pyOpenTruncate prior ++ write_energy_block energyHartree

/-! ### Path model (`main`, source lines 128-135)

A `pathlib.Path` is a flag saying whether it is absolute plus its
components; resolving a relative path prepends the process working
directory's components. -/

/-- A `pathlib.Path`. -/
structure PyPath where
  absol : Bool
  comps : List String
deriving DecidableEq

/-- `Path.parent`: drop the last component. -/
def PyPath.parentDir (p : PyPath) : PyPath := ⟨p.absol, p.comps.dropLast⟩

/-- `p / name`. -/
def PyPath.child (p : PyPath) (name : String) : PyPath := ⟨p.absol, p.comps ++ [name]⟩

/-- The absolute location a path denotes for a process whose working
directory is `cwd`. -/
def resolveIn (cwd : List String) (p : PyPath) : List String :=
  if p.absol then p.comps else cwd ++ p.comps

/-- `working_dir / ".CHRG"` where `working_dir = Path(structure_file).parent`
(source lines 130-131 with line 48). -/
def chrgPathOf (structureFile : PyPath) : PyPath := structureFile.parentDir.child ".CHRG"

/-- `working_dir / ".UHF"` (source lines 130-131 with line 49). -/
def uhfPathOf (structureFile : PyPath) : PyPath := structureFile.parentDir.child ".UHF"

/-- `Path("gradient")` (source line 132): relative to the process cwd. -/
def gradOutPath : PyPath := ⟨false, ["gradient"]⟩

/-- `Path("energy")` (source line 133): relative to the process cwd. -/
def energyOutPath : PyPath := ⟨false, ["energy"]⟩

/-! ### Optimization stage (`optimize` lines 88-92, `main` lines 149-153)

The LBFGS optimizer itself is an external ASE collaborator; it is passed in
as a function `run` taking the atoms, the force threshold `fmax`, the step
cap and the trajectory filename, and returning the (possibly unconverged)
mutated atoms together with the convergence flag that `optimizer.run`
returns.  The driver's own code never looks at that flag. -/

/-- Embedding of `optimize`: calls the optimizer and discards its returned
convergence status (the Python function returns `None`; the mutated atoms
object is the observable result). -/
def optimize {A : Type} (run : A → ℚ → ℕ → Option String → A × Bool)
    (atoms : A) (fmax : ℚ) (steps : ℕ) (traj : Option String) : A :=
  (run atoms fmax steps traj).1

/-- `argparse` default for `--fmax` (source line 20). -/
def FMAX_DEFAULT : ℚ := 5e-4

/-- The effective `--fmax` value after argument parsing. -/
def argFmax (cli : Option ℚ) : ℚ := Option.getD cli FMAX_DEFAULT

/-- `main`'s optional optimization stage (source lines 149-153): when
`--opt` is set, run the optimizer with the CLI `fmax`, a cap of 1000 steps
and trajectory file `"trajectory.out"`, mutating the atoms in place. -/
def mainOptStage {A : Type} (run : A → ℚ → ℕ → Option String → A × Bool)
    (optFlag : Bool) (fmax : ℚ) (atoms : A) : A :=
  if optFlag then optimize run atoms fmax 1000 (some "trajectory.out") else atoms

/-- The subsequent energy/force evaluation (source lines 155-168) applied to
whatever geometry the optimization stage produced. -/
def mainEvalStage {A E : Type} (run : A → ℚ → ℕ → Option String → A × Bool)
    (evalEF : A → E) (optFlag : Bool) (fmax : ℚ) (atoms : A) : E :=
  evalEF (mainOptStage run optFlag fmax atoms)

/-- An optimizer oracle that reports convergence (used as a witness). -/
def runConvTrue : ℕ → ℚ → ℕ → Option String → ℕ × Bool := fun a _ _ _ => (a + 1, true)

/-- An optimizer oracle that hits the step cap unconverged (same geometry,
convergence flag `false`; used as a witness). -/
def runConvFalse : ℕ → ℚ → ℕ → Option String → ℕ × Bool := fun a _ _ _ => (a + 1, false)

/-! ### Model-name diagnostic (`main`, source lines 141 and 182-185) -/

/-- The hardcoded default model name (source line 12). -/
def DEFAULT_MODEL : String := "uma-sm"

/-- The diagnostic line printed under `--verbose` (source line 185): it
interpolates `DEFAULT_MODEL`, not the parsed `--model` argument. -/
def usedModelLine (_modelArg : String) : String := "Used model: " ++ DEFAULT_MODEL

/-- The model name actually handed to `pretrained_mlip.get_predict_unit`
(source line 141): the parsed `--model` argument. -/
def predictorModelArg (modelArg : String) : String := modelArg

/-- The all-`+0.0` 3-vector: position of the example single atom, and its
(positively signed) zero force. -/
def pZero : V3 := (⟨false, 0⟩, ⟨false, 0⟩, ⟨false, 0⟩)

/-! ### Theorems -/

theorem ratTrunc_intCast (n : ℤ) : ratTrunc (n : ℚ) = n := by
  unfold ratTrunc
  rw [Rat.num_intCast, Rat.den_intCast]
  rcases le_or_lt 0 n with h | h
  · rw [if_pos h]
    simp [Int.toNat_of_nonneg h]
  · rw [if_neg (not_le.mpr h)]
    have : 0 ≤ -n := by omega
    simp [Int.toNat_of_nonneg this]

/-- Claim C1: resolver precedence: CLI charge, else `.CHRG` integer, else 0;
CLI multiplicity, else `.UHF`-derived, else 1; a supplied CLI charge is
returned exactly regardless of marker files; with no CLI flags and no
marker files the resolver returns `(0, 1)`. -/
theorem c1_resolver_precedence :
    (∀ dir chrgC uhfC (c m : Int),
        read_charge_and_multiplicity dir chrgC uhfC (some c) (some m) = Except.ok (c, m))
    ∧ (∀ dir chrgC uhfC (c : Int) cliM p,
        read_charge_and_multiplicity dir chrgC uhfC (some c) cliM = Except.ok p → p.1 = c)
    ∧ (∀ dir uhfC txt (n : Int) cliM p, pyInt (pyStrip txt) = Except.ok n →
        read_charge_and_multiplicity dir (some txt) uhfC none cliM = Except.ok p → p.1 = n)
    ∧ (∀ dir uhfC cliM p,
        read_charge_and_multiplicity dir none uhfC none cliM = Except.ok p → p.1 = 0)
    ∧ (∀ dir chrgC uhfC cliC (m : Int) p,
        read_charge_and_multiplicity dir chrgC uhfC cliC (some m) = Except.ok p → p.2 = m)
    ∧ (∀ dir chrgC cliC p,
        read_charge_and_multiplicity dir chrgC none cliC none = Except.ok p → p.2 = 1)
    ∧ (∀ dir, read_charge_and_multiplicity dir none none none none = Except.ok (0, 1)) := by
  refine ⟨?_, ?_, ?_, ?_, ?_, ?_, ?_⟩
  · intro dir chrgC uhfC c m
    rfl
  · intro dir chrgC uhfC c cliM p h
    simp only [read_charge_and_multiplicity] at h
    split at h
    all_goals try split at h
    all_goals try split at h
    all_goals first | (cases h; rfl) | simp at h
  · intro dir uhfC txt n cliM p hint h
    simp only [read_charge_and_multiplicity, hint] at h
    split at h
    all_goals try split at h
    all_goals try split at h
    all_goals first | (cases h; rfl) | simp at h
  · intro dir uhfC cliM p h
    simp only [read_charge_and_multiplicity] at h
    split at h
    all_goals try split at h
    all_goals try split at h
    all_goals first | (cases h; rfl) | simp at h
  · intro dir chrgC uhfC cliC m p h
    simp only [read_charge_and_multiplicity] at h
    split at h
    · simp at h
    · cases h; rfl
  · intro dir chrgC cliC p h
    simp only [read_charge_and_multiplicity] at h
    split at h
    · simp at h
    · cases h; rfl
  · intro dir
    rfl

theorem c1_resolver_precedence_witness :
    (read_charge_and_multiplicity "." (some "5") (some "abc") (some (-2)) (some 3)
        = Except.ok (-2, 3))
    ∧ (read_charge_and_multiplicity "." (some " 7 ") none none none = Except.ok (7, 1))
    ∧ ((7, 1) : Int × Int).1 = 7 := by
  refine ⟨c1_resolver_precedence.1 "." (some "5") (some "abc") (-2) 3, ?_, ?_⟩
  · with_unfolding_all decide
  · exact c1_resolver_precedence.2.2.1 "." none " 7 " 7 none (7, 1)
      (by with_unfolding_all decide) (by with_unfolding_all decide)

/-- Claim C2: a `.UHF` file whose stripped content parses as float `u`
(no CLI multiplicity) yields multiplicity `int(2*(u*0.5)+1)`, which equals
`n + 1` whenever `u` is the integer `n` (so `u=0 → 1`, `u=1 → 2`, `u=2 → 3`). -/
theorem c2_uhf_multiplicity :
    ∀ dir txt (u : ℚ), pyFloat (pyStrip txt) = Except.ok u →
      (read_charge_and_multiplicity dir none (some txt) none none
          = Except.ok (0, ratTrunc (2 * (u * (0.5 : ℚ)) + 1)))
      ∧ (∀ n : ℤ, u = (n : ℚ) → ratTrunc (2 * (u * (0.5 : ℚ)) + 1) = n + 1) := by
  intro dir txt u hu
  constructor
  · simp only [read_charge_and_multiplicity, hu]
  · intro n hn
    have harith : 2 * (u * (0.5 : ℚ)) + 1 = ((n + 1 : ℤ) : ℚ) := by
      rw [hn]; push_cast; ring
    rw [harith, ratTrunc_intCast]

theorem c2_uhf_multiplicity_witness :
    (read_charge_and_multiplicity "." none (some "2") none none = Except.ok (0, 3))
    ∧ (read_charge_and_multiplicity "." none (some "0") none none = Except.ok (0, 1))
    ∧ (read_charge_and_multiplicity "." none (some "1.0") none none = Except.ok (0, 2)) := by
  have h2 := c2_uhf_multiplicity "." "2" 2 (by with_unfolding_all decide)
  have h0 := c2_uhf_multiplicity "." "0" 0 (by with_unfolding_all decide)
  have h1 := c2_uhf_multiplicity "." "1.0" 1 (by with_unfolding_all decide)
  refine ⟨?_, ?_, ?_⟩
  · rw [h2.1, h2.2 2 (by norm_num)]; norm_num
  · rw [h0.1, h0.2 0 (by norm_num)]; norm_num
  · rw [h1.1, h1.2 1 (by norm_num)]; norm_num

theorem isPrefixOf_self (l : List Char) : l.isPrefixOf l = true := by
  induction l with
  | nil => rfl
  | cons c t ih => simp [List.isPrefixOf, ih]

theorem hasSubstring_of_suffix (l t : List Char) : hasSubstring (l ++ t) t = true := by
  induction l with
  | nil =>
    cases t with
    | nil => rfl
    | cons c r => simp [hasSubstring, isPrefixOf_self]
  | cons c l2 ih => simp [hasSubstring, ih]

/-- Claim C3 counterexample: with `.CHRG` content `"abc"` (no CLI charge),
the resolver raises a `ValueError` whose message is Python's `int()` parse
error naming the offending text, and that message does not contain the
file name `".CHRG"` anywhere. -/
theorem c3_counterexample :
    read_charge_and_multiplicity "." (some "abc") none none none
        = Except.error (PyErr.valueError "invalid literal for int() with base 10: 'abc'")
    ∧ hasSubstring "invalid literal for int() with base 10: 'abc'".data ".CHRG".data = false := by
  constructor
  · with_unfolding_all decide
  · with_unfolding_all decide

/-- Claim C3 as amended: an unparseable `.UHF` file (no CLI multiplicity)
raises a `ValueError` whose message names the offending file path (the
`.UHF` name occurs in the message); an unparseable `.CHRG` file (no CLI
charge) raises a `ValueError`, but its message names the offending content,
not the file; neither is retried (the resolver is a pure single-shot
computation). -/
theorem c3_marker_parse_failures :
    (∀ dir txt, pyFloatCore (pyStrip (pyStrip txt)).data = none →
        read_charge_and_multiplicity dir none (some txt) none none
            = Except.error (PyErr.valueError ("Invalid float in " ++ pyPathStr dir ".UHF"))
          ∧ hasSubstring ("Invalid float in " ++ pyPathStr dir ".UHF").data ".UHF".data = true)
    ∧ (∀ dir uhfC txt, pyIntCore (pyStrip (pyStrip txt)).data = none →
        read_charge_and_multiplicity dir (some txt) uhfC none none
            = Except.error (PyErr.valueError
                ("invalid literal for int() with base 10: " ++ pyRepr (pyStrip txt)))) := by
  constructor
  · intro dir txt hfail
    have hfl : pyFloat (pyStrip txt) = Except.error
        (PyErr.valueError ("could not convert string to float: " ++ pyRepr (pyStrip txt))) := by
      unfold pyFloat
      rw [hfail]
    constructor
    · simp only [read_charge_and_multiplicity, hfl]
    · unfold pyPathStr
      by_cases hdot : dir = "."
      · rw [if_pos hdot, String.data_append]
        exact hasSubstring_of_suffix "Invalid float in ".data ".UHF".data
      · rw [if_neg hdot, String.data_append, String.data_append, ← List.append_assoc]
        exact hasSubstring_of_suffix ("Invalid float in ".data ++ (dir ++ "/").data) ".UHF".data
  · intro dir uhfC txt hfail
    have hint : pyInt (pyStrip txt) = Except.error
        (PyErr.valueError ("invalid literal for int() with base 10: " ++ pyRepr (pyStrip txt))) := by
      unfold pyInt
      rw [hfail]
    simp only [read_charge_and_multiplicity, hint]

theorem c3_marker_parse_failures_witness :
    (read_charge_and_multiplicity "/data" none (some "x2") none none
        = Except.error (PyErr.valueError "Invalid float in /data/.UHF"))
    ∧ hasSubstring "Invalid float in /data/.UHF".data ".UHF".data = true
    ∧ (read_charge_and_multiplicity "." (some "1.5") none none none
        = Except.error (PyErr.valueError "invalid literal for int() with base 10: '1.5'")) := by
  have h1 := c3_marker_parse_failures.1 "/data" "x2" (by with_unfolding_all decide)
  have h2 := c3_marker_parse_failures.2 "." none "1.5" (by with_unfolding_all decide)
  refine ⟨?_, ?_, ?_⟩
  · rw [h1.1]; with_unfolding_all decide
  · have := h1.2; with_unfolding_all decide
  · rw [h2]; with_unfolding_all decide

theorem dropWhile_eq_nil_of_all (l : List Char) (h : l.all isPyWS = true) :
    l.dropWhile isPyWS = [] := by
  rw [List.dropWhile_eq_nil_iff]
  intro x hx
  exact (List.all_eq_true.mp h) x hx

theorem dropWhile_ws_append (a t : List Char) (ha : a.all isPyWS = true) :
    (a ++ t).dropWhile isPyWS = t.dropWhile isPyWS := by
  rw [List.dropWhile_append, dropWhile_eq_nil_of_all a ha]
  rfl

theorem stripList_ws_left (a t : List Char) (ha : a.all isPyWS = true) :
    stripList (a ++ t) = stripList t := by
  unfold stripList
  rw [dropWhile_ws_append a t ha]

theorem stripList_ws_right (t b : List Char) (hb : b.all isPyWS = true) :
    stripList (t ++ b) = stripList t := by
  unfold stripList
  rw [List.dropWhile_append]
  by_cases h : (t.dropWhile isPyWS).isEmpty
  · rw [if_pos h, dropWhile_eq_nil_of_all b hb]
    rw [List.isEmpty_iff] at h
    rw [h]
  · rw [if_neg h, List.reverse_append]
    rw [dropWhile_ws_append b.reverse (t.dropWhile isPyWS).reverse (by rwa [List.all_reverse])]

theorem pyStrip_padded (a b : List Char) (t : String)
    (ha : a.all isPyWS = true) (hb : b.all isPyWS = true) :
    pyStrip (String.mk a ++ t ++ String.mk b) = pyStrip t := by
  unfold pyStrip
  have hdata : (String.mk a ++ t ++ String.mk b).data = a ++ t.data ++ b := by
    rw [String.data_append, String.data_append]
  rw [hdata, List.append_assoc, stripList_ws_left a (t.data ++ b) ha,
    stripList_ws_right t.data b hb]

/-- Claim C10: whitespace around marker-file content is stripped before
parsing: padding the `.CHRG` and `.UHF` contents with any leading/trailing
whitespace (spaces, tabs, newlines, ...) leaves the resolver's result
unchanged. -/
theorem c10_whitespace_stripped :
    ∀ dir (txtC txtU : String) (a b c d : List Char),
      a.all isPyWS = true → b.all isPyWS = true →
      c.all isPyWS = true → d.all isPyWS = true →
      read_charge_and_multiplicity dir (some (String.mk a ++ txtC ++ String.mk b))
          (some (String.mk c ++ txtU ++ String.mk d)) none none
        = read_charge_and_multiplicity dir (some txtC) (some txtU) none none := by
  intro dir txtC txtU a b c d ha hb hc hd
  simp only [read_charge_and_multiplicity]
  rw [pyStrip_padded a b txtC ha hb, pyStrip_padded c d txtU hc hd]

theorem c10_whitespace_stripped_witness :
    read_charge_and_multiplicity "." (some (String.mk " ".data ++ "7" ++ String.mk "\n".data))
        (some (String.mk "\t".data ++ "2" ++ String.mk " \n".data)) none none
      = read_charge_and_multiplicity "." (some "7") (some "2") none none :=
  c10_whitespace_stripped "." "7" "2" " ".data "\n".data "\t".data " \n".data
    (by decide) (by decide) (by decide) (by decide)

/-- Claim C5: `write_energy_block` overwrites the target file with exactly
`$energy\n     1     E     E     E\n$end\n` (the `.10f`-formatted energy
three times); for `E = -75.1234567890` the content is byte-exact. -/
theorem c5_energy_block_bytes :
    (∀ (prior : String) (E : F64),
        writeEnergyBlockFS prior E
          = "$energy\n     1     " ++ fmtFixed 10 E ++ "     " ++ fmtFixed 10 E ++ "     "
              ++ fmtFixed 10 E ++ "\n$end\n")
    ∧ write_energy_block (F64.ofRat (-75.1234567890 : ℚ))
        = "$energy\n     1     -75.1234567890     -75.1234567890     -75.1234567890\n$end\n" := by
  constructor
  · intro prior E
    rfl
  · with_unfolding_all decide

/-- Claim C8: both writers open their target with mode `"w"` (truncate), so
the written bytes are independent of the file's prior content, and running
either writer twice on identical inputs leaves byte-identical files. -/
theorem c8_writers_overwrite_deterministic :
    ∀ (E E2 : F64) (ps : List V3) (ss : List String) (fs : List V3) (p1 p2 : String),
      writeGradientBlockFS p1 E ps ss fs = writeGradientBlockFS p2 E ps ss fs
      ∧ writeGradientBlockFS (writeGradientBlockFS p1 E ps ss fs) E ps ss fs
          = writeGradientBlockFS p1 E ps ss fs
      ∧ writeEnergyBlockFS p1 E2 = writeEnergyBlockFS p2 E2
      ∧ writeEnergyBlockFS (writeEnergyBlockFS p1 E2) E2 = writeEnergyBlockFS p1 E2 := by
  intro E E2 ps ss fs p1 p2
  exact ⟨rfl, rfl, rfl, rfl⟩

/-- Claim C6: the `.CHRG`/`.UHF` marker files are looked up under the parent
directory of the structure-file path (so never in the process working
directory when that parent resolves elsewhere, and independently of the
working directory for absolute structure paths), while the `gradient` and
`energy` outputs are relative paths resolved in the process working
directory. -/
theorem c6_marker_and_output_paths :
    ∀ (cwd : List String) (sf : PyPath),
      resolveIn cwd (chrgPathOf sf) = resolveIn cwd sf.parentDir ++ [".CHRG"]
      ∧ resolveIn cwd (uhfPathOf sf) = resolveIn cwd sf.parentDir ++ [".UHF"]
      ∧ (resolveIn cwd (chrgPathOf sf)).dropLast = resolveIn cwd sf.parentDir
      ∧ (resolveIn cwd sf.parentDir ≠ cwd → (resolveIn cwd (chrgPathOf sf)).dropLast ≠ cwd)
      ∧ (sf.absol = true → ∀ cwd2, resolveIn cwd (chrgPathOf sf) = resolveIn cwd2 (chrgPathOf sf))
      ∧ resolveIn cwd gradOutPath = cwd ++ ["gradient"]
      ∧ resolveIn cwd energyOutPath = cwd ++ ["energy"] := by
  intro cwd sf
  have h1 : resolveIn cwd (chrgPathOf sf) = resolveIn cwd sf.parentDir ++ [".CHRG"] := by
    unfold resolveIn chrgPathOf PyPath.child PyPath.parentDir
    cases hb : sf.absol <;> simp [hb]
  have h2 : resolveIn cwd (uhfPathOf sf) = resolveIn cwd sf.parentDir ++ [".UHF"] := by
    unfold resolveIn uhfPathOf PyPath.child PyPath.parentDir
    cases hb : sf.absol <;> simp [hb]
  have h3 : (resolveIn cwd (chrgPathOf sf)).dropLast = resolveIn cwd sf.parentDir := by
    rw [h1, List.dropLast_concat]
  refine ⟨h1, h2, h3, ?_, ?_, ?_, ?_⟩
  · intro hne
    rw [h3]
    exact hne
  · intro habs cwd2
    unfold resolveIn chrgPathOf PyPath.child PyPath.parentDir
    simp [habs]
  · rfl
  · rfl

theorem c6_marker_and_output_paths_witness :
    (resolveIn ["home"] (chrgPathOf ⟨false, ["sub", "mol.xyz"]⟩)).dropLast ≠ ["home"]
    ∧ resolveIn ["home"] (chrgPathOf ⟨true, ["data", "mol.xyz"]⟩)
        = resolveIn ["elsewhere"] (chrgPathOf ⟨true, ["data", "mol.xyz"]⟩) := by
  constructor
  · exact (c6_marker_and_output_paths ["home"] ⟨false, ["sub", "mol.xyz"]⟩).2.2.2.1 (by decide)
  · exact (c6_marker_and_output_paths ["home"] ⟨true, ["data", "mol.xyz"]⟩).2.2.2.2.1 rfl
      ["elsewhere"]

/-- Claim C7: with `--opt` set, the optimizer is invoked with the CLI force
threshold (default `5e-4`) and a hard cap of 1000 steps; its convergence
status is discarded (`optimize` returns normally either way) and the
possibly-unconverged geometry feeds the subsequent evaluation, so two
optimizer oracles that produce the same geometry but different convergence
flags give identical pipeline results. -/
theorem c7_optimizer_nonconvergence :
    (∀ (A E : Type) (run : A → ℚ → ℕ → Option String → A × Bool) (evalEF : A → E)
        (f : ℚ) (atoms : A),
        mainEvalStage run evalEF true f atoms
          = evalEF ((run atoms f 1000 (some "trajectory.out")).1))
    ∧ (∀ (A E : Type) (run run2 : A → ℚ → ℕ → Option String → A × Bool) (evalEF : A → E)
        (o : Bool) (f : ℚ) (atoms : A),
        (∀ a f2 s t, (run a f2 s t).1 = (run2 a f2 s t).1) →
        mainEvalStage run evalEF o f atoms = mainEvalStage run2 evalEF o f atoms)
    ∧ argFmax none = (5e-4 : ℚ) := by
  refine ⟨?_, ?_, rfl⟩
  · intro A E run evalEF f atoms
    rfl
  · intro A E run run2 evalEF o f atoms hagree
    cases o with
    | false => rfl
    | true =>
      simp only [mainEvalStage, mainOptStage, optimize, if_true]
      rw [hagree]

theorem c7_optimizer_nonconvergence_witness :
    mainEvalStage runConvTrue id true 0 0 = mainEvalStage runConvFalse id true 0 0 :=
  c7_optimizer_nonconvergence.2.1 ℕ ℕ runConvTrue runConvFalse id true 0 0
    (fun _ _ _ _ => rfl)

/-- Claim C9: under `--verbose` the `Used model:` line always prints the
hardcoded `DEFAULT_MODEL` name `uma-sm` whatever `--model` was passed, even
though the `--model` value is what is handed to the predictor loader. -/
theorem c9_used_model_line :
    ∀ m : String,
      usedModelLine m = "Used model: uma-sm"
      ∧ predictorModelArg m = m
      ∧ (m ≠ DEFAULT_MODEL → usedModelLine m ≠ "Used model: " ++ m) := by
  intro m
  refine ⟨rfl, rfl, ?_⟩
  intro hne heq
  apply hne
  unfold usedModelLine at heq
  have hdata := congrArg String.data heq
  rw [String.data_append, String.data_append] at hdata
  have hmd : m.data = DEFAULT_MODEL.data := (List.append_cancel_left hdata).symm
  exact congrArg String.mk hmd

theorem c9_used_model_line_witness :
    usedModelLine "uma-md" = "Used model: uma-sm"
    ∧ usedModelLine "uma-md" ≠ "Used model: " ++ "uma-md" :=
  ⟨(c9_used_model_line "uma-md").1, (c9_used_model_line "uma-md").2.2 (by decide)⟩

theorem join_foldl_acc (l : List String) : ∀ acc : String,
    List.foldl (fun r s => r ++ s) acc l = acc ++ String.join l := by
  induction l with
  | nil =>
    intro acc
    show acc = acc ++ String.join []
    rw [show String.join [] = "" from rfl, String.append_empty]
  | cons x t ih =>
    intro acc
    show List.foldl (fun r s => r ++ s) (acc ++ x) t = acc ++ String.join (x :: t)
    rw [ih (acc ++ x)]
    have hx : String.join (x :: t) = x ++ String.join t := by
      show List.foldl (fun r s => r ++ s) ("" ++ x) t = x ++ String.join t
      rw [ih ("" ++ x), String.empty_append]
    rw [hx, String.append_assoc]

theorem join_cons (x : String) (t : List String) :
    String.join (x :: t) = x ++ String.join t := by
  show List.foldl (fun r s => r ++ s) ("" ++ x) t = x ++ String.join t
  rw [join_foldl_acc t ("" ++ x), String.empty_append]

theorem coordLinesOf_eq_join (ps : List V3) : ∀ ss : List String,
    coordLinesOf ps ss = String.join ((List.zip ps ss).map (fun x => coordLine x.1 x.2)) := by
  induction ps with
  | nil =>
    intro ss
    cases ss <;> rfl
  | cons p pt ih =>
    intro ss
    cases ss with
    | nil => rfl
    | cons s st =>
      show coordLine p s ++ coordLinesOf pt st = _
      rw [List.zip_cons_cons, List.map_cons, join_cons, ih st]

theorem gradLinesOf_eq_join (gs : List V3) :
    gradLinesOf gs = String.join (gs.map gradLine) := by
  induction gs with
  | nil => rfl
  | cons g t ih =>
    show gradLine g ++ gradLinesOf t = _
    rw [List.map_cons, join_cons, ih]

theorem ratSqrtA_sq (r : ℚ) (h : 0 ≤ r) : ratSqrtA (r * r) = r := by
  have hrnum : 0 ≤ r.num := Rat.num_nonneg.mpr h
  have hna : r.num = (r.num.toNat : ℤ) := (Int.toNat_of_nonneg hrnum).symm
  have htoNat : (r * r).num.toNat = r.num.toNat * r.num.toNat := by
    rw [Rat.mul_self_num, hna, ← Nat.cast_mul, Int.toNat_natCast, Int.toNat_natCast]
  simp only [ratSqrtA]
  rw [htoNat, Rat.mul_self_den, Nat.sqrt_eq, Nat.sqrt_eq]
  rw [if_pos ⟨rfl, rfl⟩]
  have hcast : ((r.num.toNat : ℕ) : ℚ) = ((r.num : ℤ) : ℚ) := by
    exact_mod_cast congrArg (fun z : ℤ => (z : ℚ)) hna.symm
  rw [hcast]
  exact Rat.num_div_den r

theorem foldl_sqAcc (xs : List F64) : ∀ s : ℚ, 0 ≤ s →
    List.foldl sqAcc ⟨false, s⟩ xs = ⟨false, s + sumSqMags xs⟩ := by
  induction xs with
  | nil =>
    intro s hs
    simp [sumSqMags]
  | cons x t ih =>
    intro s hs
    have hm2 : 0 ≤ x.mag * x.mag := mul_self_nonneg x.mag
    have hstep : sqAcc ⟨false, s⟩ x = ⟨false, s + x.mag * x.mag⟩ := by
      by_cases hv : s + x.mag * x.mag = 0
      · simp [sqAcc, F64.fadd, F64.fmul, F64.val, Bool.xor_self, hv]
      · have hvnn : 0 ≤ s + x.mag * x.mag := add_nonneg hs hm2
        simp [sqAcc, F64.fadd, F64.fmul, F64.val, F64.ofRat, Bool.xor_self, hv,
          abs_of_nonneg hvnn, not_lt.mpr hvnn]
    rw [List.foldl_cons, hstep, ih (s + x.mag * x.mag) (add_nonneg hs hm2)]
    have : s + x.mag * x.mag + sumSqMags t = s + sumSqMags (x :: t) := by
      simp [sumSqMags]
      ring
    rw [this]

theorem npNorm_eq_of_sq (xs : List F64) (r : ℚ) (h0 : 0 ≤ r)
    (hsq : r * r = sumSqMags xs) : npNorm xs = ⟨false, r⟩ := by
  unfold npNorm
  rw [foldl_sqAcc xs 0 le_rfl]
  unfold F64.fsqrt
  show (⟨false, ratSqrtA (0 + sumSqMags xs)⟩ : F64) = ⟨false, r⟩
  rw [zero_add, ← hsq, ratSqrtA_sq r h0]

/-- Claim C4 counterexample: with a single atom `"O"` at `(+0.0, +0.0, +0.0)`
and force `(+0.0, +0.0, +0.0)`, the sign flip `-forces` produces IEEE `-0.0`,
so each gradient entry is formatted `-0.00000000000000`: the gradient line is
not the all-zeros line the claim describes, and the whole file differs from
the claimed all-zeros bytes. -/
theorem c4_counterexample :
    gradLine (gradV3 pZero)
        = "   -0.00000000000000    -0.00000000000000    -0.00000000000000\n"
    ∧ (write_gradient_block ⟨true, 75⟩ [pZero] ["O"] [pZero]).1
        ≠ "$grad\n cycle = 1   SCF energy = -75.0000000000  |dE/dxyz| = 0.0000000000\n"
            ++ "    0.00000000000000      0.00000000000000      0.00000000000000  o\n"
            ++ "    0.00000000000000     0.00000000000000     0.00000000000000\n"
            ++ "$end\n" := by
  constructor
  · with_unfolding_all decide
  · with_unfolding_all decide

set_option maxRecDepth 100000 in
/-- Claim C4 as amended: `write_gradient_block` writes `$grad`, the
`cycle = 1` header with the `.10f` energy and gradient norm, one coordinate
line per zipped (position, symbol) pair (positions divided by Bohr in
`20.14f`, symbol lowercased and right-justified to width 2), one `20.14f`
gradient line per atom with `gradient = -F * Bohr / Hartree`, then `$end`;
the header norm is the Euclidean norm of the flattened gradient array
(exactly, whenever that norm is rational) and the same norm is printed to
stdout.  For the single atom `"O"` at the origin with `+0.0` forces the
coordinate line is all zeros, the gradient line carries negative zeros
(`-0.00000000000000`), and the header shows `|dE/dxyz| = 0.0000000000`. -/
theorem c4_gradient_block :
    (∀ (E : F64) (ps : List V3) (ss : List String) (fs : List V3),
        (write_gradient_block E ps ss fs).1
          = "$grad\n" ++ " cycle = 1   SCF energy = " ++ fmtFixed 10 E ++ "  |dE/dxyz| = "
              ++ fmtFixed 10 (npNorm (flat3 (fs.map gradV3))) ++ "\n"
              ++ String.join ((List.zip ps ss).map (fun x => coordLine x.1 x.2))
              ++ String.join ((fs.map gradV3).map gradLine) ++ "$end\n"
          ∧ (write_gradient_block E ps ss fs).2
              = "Gradient Norm: " ++ fmtFixed 10 (npNorm (flat3 (fs.map gradV3))) ++ "\n")
    ∧ (∀ (fs : List V3) (r : ℚ), 0 ≤ r → r * r = sumSqMags (flat3 (fs.map gradV3)) →
        npNorm (flat3 (fs.map gradV3)) = ⟨false, r⟩)
    ∧ ((write_gradient_block ⟨true, 75⟩ [pZero] ["O"] [pZero]).1
          = "$grad\n cycle = 1   SCF energy = -75.0000000000  |dE/dxyz| = 0.0000000000\n"
              ++ "    0.00000000000000      0.00000000000000      0.00000000000000  o\n"
              ++ "   -0.00000000000000    -0.00000000000000    -0.00000000000000\n"
              ++ "$end\n"
        ∧ (write_gradient_block ⟨true, 75⟩ [pZero] ["O"] [pZero]).2
          = "Gradient Norm: 0.0000000000\n") := by
  refine ⟨?_, ?_, ?_, ?_⟩
  · intro E ps ss fs
    constructor
    · show ("$grad\n" ++ " cycle = 1   SCF energy = " ++ fmtFixed 10 E ++ "  |dE/dxyz| = "
          ++ fmtFixed 10 (npNorm (flat3 (fs.map gradV3))) ++ "\n"
          ++ coordLinesOf ps ss ++ gradLinesOf (fs.map gradV3) ++ "$end\n") = _
      rw [coordLinesOf_eq_join, gradLinesOf_eq_join]
    · rfl
  · intro fs r h0 hsq
    exact npNorm_eq_of_sq (flat3 (fs.map gradV3)) r h0 hsq
  · with_unfolding_all decide
  · with_unfolding_all decide

theorem c4_gradient_block_witness :
    npNorm (flat3 ([pZero].map gradV3)) = ⟨false, 0⟩ :=
  c4_gradient_block.2.1 [pZero] 0 (by norm_num) (by with_unfolding_all decide)
